import Mathlib

/-!
Shallow embedding of the SkillBuddy interview-orchestration core.

Source files embedded here:
- `skillbuddy/agents/interview_coach.py` — `_strip_markdown_fences`,
  `check_answer_clarity`, `generate_live_interview_questions`,
  `generate_questions`;
- `app.py` — the live-interview Submit Answer and Skip Question handlers;
- `skillbuddy/services/serp.py` — `SerpApiClient.search_jobs` quota gate;
- `skillbuddy/types/interview.py` — the pydantic record shapes.

Python strings are modelled as `List Char`; the handful of `str` methods the
code uses (`strip`, `split("\n")`, `"\n".join`, `startswith("```")`) are
defined below with Python semantics.  Machine-level details (unicode
whitespace beyond the ASCII set, TTL expiry of the cache) do not matter to
any claim and are noted where they are elided.

Streamlit control flow: `st.stop()` raises `StopException` and `st.rerun()`
raises `RerunException`; both derive from `ScriptControlException`, which in
current Streamlit inherits from `BaseException` precisely so that user-level
`except Exception` blocks do not swallow them.  The submit-handler embedding
below therefore treats `st.stop()` as terminating the handler without being
captured by the handler's own `except Exception` clause.
-/

namespace SkillBuddy

/-- Python whitespace predicate for `str.strip` (ASCII whitespace:
space, tab, newline, carriage return, vertical tab, form feed). -/
def pyIsSpace (c : Char) : Bool :=
  c = ' ' || c = '\t' || c = '\n' || c = '\r' || c = Char.ofNat 11 || c = Char.ofNat 12

/-- Remove leading whitespace (Python `str.lstrip`). -/
def lstripChars (l : List Char) : List Char := l.dropWhile pyIsSpace

/-- Remove trailing whitespace (Python `str.rstrip`). -/
def rstripChars (l : List Char) : List Char := (l.reverse.dropWhile pyIsSpace).reverse

/-- Python `str.strip`: remove leading and trailing whitespace. -/
def pyStrip (l : List Char) : List Char := rstripChars (lstripChars l)

/-- Python `text.split("\n")`: split into lines at every newline; the result
is always non-empty and separators are consumed. -/
def splitOnNl : List Char → List (List Char)
  | [] => [[]]
  | c :: rest =>
    if c = '\n' then [] :: splitOnNl rest
    else
      match splitOnNl rest with
      | [] => [[c]]
      | l :: ls => (c :: l) :: ls

/-- Python `"\n".join(lines)`. -/
def joinNl : List (List Char) → List Char
  | [] => []
  | [l] => l
  | l :: l2 :: ls => l ++ '\n' :: joinNl (l2 :: ls)

/-- The backquote character used by markdown fences. -/
def fenceChar : Char := Char.ofNat 96

/-- Python `line.startswith("```")`. -/
def startsWithFence : List Char → Bool
  | c1 :: c2 :: c3 :: _ => c1 = fenceChar && c2 = fenceChar && c3 = fenceChar
  | _ => false

/-- `InterviewCoach._strip_markdown_fences` (interview_coach.py lines
420-427): strip the text; if the stripped text starts with a fence marker,
drop every line starting with a fence marker, re-join and strip again. -/
def stripMarkdownFences (text : List Char) : List Char :=
  let t := pyStrip text
  if startsWithFence t then
    pyStrip (joinNl ((splitOnNl t).filter (fun l => !startsWithFence l)))
  else
    t

/-- Character list of a string literal. -/
def toChars (s : String) : List Char := s.data

/-- Python truthiness of a string: non-empty. -/
def strTruthy (s : String) : Bool := !s.isEmpty

/-- Python truthiness of `s.strip()`. -/
def strippedTruthy (s : String) : Bool := !(pyStrip s.data).isEmpty

/-- Python truthiness of an `Optional[str]`: `None` and `""` are falsy. -/
def optStrTruthy : Option String → Bool
  | none => false
  | some s => !s.isEmpty

/-- Pydantic `LiveAnswerFeedback` (types/interview.py lines 96-101).  The
model declares the four fields with `clarification_prompt` optional and
defaulting to `None`; it declares no cross-field validator. -/
structure LiveAnswerFeedback where
  is_clear : Bool
  needs_clarification : Bool
  clarification_prompt : Option String
  brief_feedback : String
deriving DecidableEq, Repr

/-- Pydantic `LiveInterviewQuestion` (types/interview.py lines 84-88).
`question_number` is a plain int field with no bound or ordering
validator. -/
structure LiveInterviewQuestion where
  question_number : Nat
  question : String
  category : String
deriving DecidableEq, Repr

/-- Pydantic `InterviewQuestion` (types/interview.py lines 24-28). -/
structure InterviewQuestion where
  question : String
  category : String
  context : Option String
deriving DecidableEq, Repr

/-- One response candidate from the Gemini backend, reduced to what the code
reads: `candidate.content` is `None` (pydantic falsy) or carries the list of
part texts; the code accesses `content.parts[0].text`. -/
structure GenCandidate where
  content : Option (List (List Char))
deriving DecidableEq

/-- The verdict `check_answer_clarity` builds when the backend returns no
usable candidate (interview_coach.py lines 128-134). -/
def defaultClarityVerdict : LiveAnswerFeedback :=
  { is_clear := true
    needs_clarification := false
    clarification_prompt := none
    brief_feedback := "Answer noted." }

/-- `InterviewCoach.check_answer_clarity` response handling
(interview_coach.py lines 95-138).  `decodeVerdict` stands for
`json.loads` followed by `LiveAnswerFeedback(**data)`: pydantic checks field
presence and types but applies no cross-field validation, so any
successfully decoded record is returned verbatim.  An empty candidate list
or a falsy (`None`) content yields the fail-open default verdict; an empty
parts list would raise (`parts[0]`), and a decode failure raises, both
modelled as `.error`. -/
def check_answer_clarity (resp : List GenCandidate)
    (decodeVerdict : List Char → Except Unit LiveAnswerFeedback) :
    Except Unit LiveAnswerFeedback :=
  match resp with
  | [] => .ok defaultClarityVerdict
  | c :: _ =>
    match c.content with
    | none => .ok defaultClarityVerdict
    | some [] => .error ()
    | some (t :: _) => decodeVerdict (stripMarkdownFences t)

/-- `InterviewCoach.generate_live_interview_questions` response handling
(interview_coach.py lines 38-93).  `decodeQuestions` stands for
`json.loads` + `LiveInterviewQuestions(**data)` + `.questions`; the pydantic
model constrains neither the length of the list nor the numbering, and the
function returns the decoded list unmodified.  No usable candidate raises
`RuntimeError` (modelled `.error`). -/
def generate_live_interview_questions (resp : List GenCandidate)
    (decodeQuestions : List Char → Except Unit (List LiveInterviewQuestion)) :
    Except Unit (List LiveInterviewQuestion) :=
  match resp with
  | [] => .error ()
  | c :: _ =>
    match c.content with
    | none => .error ()
    | some [] => .error ()
    | some (t :: _) => decodeQuestions (stripMarkdownFences t)

/-- `InterviewCoach.generate_questions` response handling
(interview_coach.py lines 197-258).  Identical shape to the live variant
except the final `questions.questions[:num_questions]` slice, modelled as
`List.take`. -/
def generate_questions (resp : List GenCandidate)
    (decodeQuestions : List Char → Except Unit (List InterviewQuestion))
    (numQuestions : Nat) : Except Unit (List InterviewQuestion) :=
  match resp with
  | [] => .error ()
  | c :: _ =>
    match c.content with
    | none => .error ()
    | some [] => .error ()
    | some (t :: _) => (decodeQuestions (stripMarkdownFences t)).map
        (fun qs => qs.take numQuestions)

/-- Live-interview input mode (`st.session_state["live_mode"]`). -/
inductive LiveMode
  | audio
  | text
deriving DecidableEq

/-- The live-interview session state the submit handler mutates
(`live_answers`, `live_transcripts`, `live_current_q` in
`st.session_state`). -/
structure LiveSessionState where
  answers : List String
  transcripts : List String
  currentQ : Nat
deriving DecidableEq, Repr

/-- What a single submit-handler run did, beyond the state it returns. -/
inductive SubmitOutcome
  | accepted (ans : String)
  | clarificationRequested (p : String)
  | errorRecovered (ans : String)
  | stoppedForRetry
deriving DecidableEq, Repr

/-- The accept-turn mutation used by every advancing path of the handlers:
append one answer and advance the cursor by one (app.py lines 453-455,
463-470, 475-477). -/
def acceptAnswer (st : LiveSessionState) (ans : String) : LiveSessionState :=
  { st with answers := st.answers ++ [ans], currentQ := st.currentQ + 1 }

/-- The tail of the Submit Answer handler once `final_answer` is fixed
(app.py lines 446-471): run the clarity check; if the verdict asks for
clarification with a truthy prompt, surface it without mutating state;
otherwise accept and advance.  If the clarity check itself raises, the
outer `except Exception` recovers by accepting `final_answer` if truthy,
else the typed `answer` if its strip is truthy, else the literal
placeholder `"[Error processing answer]"`, and advances. -/
def clarityGate (st : LiveSessionState) (finalAnswer answer : String)
    (clarity : String → Except Unit LiveAnswerFeedback) :
    LiveSessionState × SubmitOutcome :=
  match clarity finalAnswer with
  | .ok fb =>
    if fb.needs_clarification && optStrTruthy fb.clarification_prompt then
      (st, .clarificationRequested (fb.clarification_prompt.getD ""))
    else
      (acceptAnswer st finalAnswer, .accepted finalAnswer)
  | .error _ =>
    let recovered :=
      if strTruthy finalAnswer then finalAnswer
      else if strippedTruthy answer then answer
      else "[Error processing answer]"
    (acceptAnswer st recovered, .errorRecovered recovered)

/-- The live-interview Submit Answer handler (app.py lines 409-471).
`audioPresent` is the truthiness of `audio_bytes`; `transcribe` is the
outcome of `coach.transcribe_audio`; `clarity` the outcome of
`coach.check_answer_clarity` on a given final answer.  On transcription
success the transcript is recorded and becomes the final answer; on
transcription failure the handler falls back to the typed answer when its
strip is truthy, and otherwise shows an error and calls `st.stop()`, which
raises a control exception that the handler's own `except Exception` does
not catch, so the run ends with the session state untouched. -/
def submitAnswer (st : LiveSessionState) (mode : LiveMode)
    (audioPresent : Bool) (answer : String)
    (transcribe : Except Unit String)
    (clarity : String → Except Unit LiveAnswerFeedback) :
    LiveSessionState × SubmitOutcome :=
  if audioPresent && mode == LiveMode.audio then
    match transcribe with
    | .ok transcript =>
      clarityGate { st with transcripts := st.transcripts ++ [transcript] }
        transcript answer clarity
    | .error _ =>
      if strippedTruthy answer then
        clarityGate st answer answer clarity
      else
        (st, .stoppedForRetry)
  else
    clarityGate st answer answer clarity

/-- The Skip Question handler (app.py lines 474-478): append the literal
`"[Skipped]"` and advance, bypassing the clarity gate. -/
def skipQuestion (st : LiveSessionState) : LiveSessionState :=
  { st with answers := st.answers ++ ["[Skipped]"], currentQ := st.currentQ + 1 }

/-- Whether a submit outcome is an accepted turn (normal accept or the
exception-recovery accept). -/
def outcomeAccepts : SubmitOutcome → Bool
  | .accepted _ => true
  | .errorRecovered _ => true
  | .clarificationRequested _ => false
  | .stoppedForRetry => false

/-- `SERPAPI_MONTHLY_QUOTA` (config.py). -/
def SERPAPI_MONTHLY_QUOTA : Nat := 250

/-- A SerpAPI payload reduced to the `jobs_results` list the client trims.
Entries are left abstract as strings. -/
structure SerpPayload where
  jobs : List String
deriving DecidableEq, Repr

/-- Cache key `(query, location or "", num_results)` (serp.py line 35). -/
def SerpKey : Type := String × String × Nat

instance : DecidableEq SerpKey := by
  unfold SerpKey
  infer_instance

/-- Lookup in the client's cache, modelled as an association list (TTL
expiry is time-dependent and out of scope; a live entry is present, an
expired or never-written one is absent). -/
def cacheLookup : List (SerpKey × SerpPayload) → SerpKey → Option SerpPayload
  | [], _ => none
  | (k, v) :: rest, key => if k = key then some v else cacheLookup rest key

/-- `SerpApiClient` mutable state: `_request_count` and `_cache`. -/
structure SerpState where
  requestCount : Nat
  cache : List (SerpKey × SerpPayload)
deriving DecidableEq

/-- Result of one `search_jobs` call. -/
inductive SerpOutcome
  | cached (p : SerpPayload)
  | quotaError
  | fetched (p : SerpPayload)
deriving DecidableEq

/-- `SerpApiClient.search_jobs` (serp.py lines 27-62): serve from cache
unless `fresh`; otherwise raise `SerpApiQuotaExceeded` before any network
activity when `_request_count` has reached the quota, leaving the count
unchanged; otherwise increment the count, perform the request (its payload
is the `net` parameter), trim `jobs_results` to `num_results`, cache and
return.  Only the `fetched` outcome corresponds to a network request. -/
def search_jobs (st : SerpState) (query : String) (location : Option String)
    (numResults : Nat) (fresh : Bool) (net : SerpPayload) :
    SerpState × SerpOutcome :=
  let key : SerpKey := (query, location.getD "", numResults)
  match fresh, cacheLookup st.cache key with
  | false, some p => (st, .cached p)
  | _, _ =>
    if SERPAPI_MONTHLY_QUOTA ≤ st.requestCount then
      (st, .quotaError)
    else
      let trimmed : SerpPayload := { jobs := net.jobs.take numResults }
      ({ requestCount := st.requestCount + 1,
         cache := (key, trimmed) :: st.cache }, .fetched trimmed)

/-- A single live question as a backend payload may legally decode to it:
pydantic puts no bound on `question_number` and no length constraint on the
list it sits in. -/
def strayLiveQuestion : LiveInterviewQuestion :=
  { question_number := 3
    question := "Walk me through your main project."
    category := "project" }

/-- A well-formed seven-question live payload, numbered 1..7 in the fixed
category order the prompt requests. -/
def sevenLiveQuestions : List LiveInterviewQuestion :=
  [ { question_number := 1, question := "Tell me about yourself.", category := "intro" }
  , { question_number := 2, question := "Describe your main project.", category := "project" }
  , { question_number := 3, question := "What was hardest about that project?", category := "project" }
  , { question_number := 4, question := "How does OCR preprocessing work in your pipeline?", category := "technical" }
  , { question_number := 5, question := "Explain how you used LangChain agents.", category := "technical" }
  , { question_number := 6, question := "How would you debug a slow retrieval step?", category := "problem_solving" }
  , { question_number := 7, question := "Tell me about a team conflict you resolved.", category := "hr_culture" } ]

/-- A three-question standard payload (fewer than the expected five). -/
def threeQuestions : List InterviewQuestion :=
  [ { question := "Explain the architecture of project X.", category := "project_architecture", context := none }
  , { question := "Describe a hard bug you fixed.", category := "challenges", context := none }
  , { question := "How does React reconciliation work?", category := "technology_deep_dive", context := none } ]

/-- A six-question standard payload (more than the expected five). -/
def sixQuestions : List InterviewQuestion :=
  [ { question := "Q1", category := "project_architecture", context := none }
  , { question := "Q2", category := "challenges", context := none }
  , { question := "Q3", category := "technology_deep_dive", context := none }
  , { question := "Q4", category := "real_world_application", context := none }
  , { question := "Q5", category := "optimization_scalability", context := none }
  , { question := "Q6", category := "challenges", context := none } ]

/-- A clarity verdict a backend payload may legally decode to, carrying both
a follow-up prompt and a non-empty acknowledgement: the pydantic model has
no cross-field validator forbidding it. -/
def bothPopulatedVerdict : LiveAnswerFeedback :=
  { is_clear := false
    needs_clarification := true
    clarification_prompt := some "Could you elaborate on the scaling part?"
    brief_feedback := "Good start." }

/-! Helper lemmas about the Python string primitives. -/

/-- Dropping while a predicate holds is a no-op when the head fails it. -/
theorem sb_dropWhile_head_false {α : Type} {p : α → Bool} {a : α} (t : List α)
    (h : p a = false) : List.dropWhile p (a :: t) = a :: t := by
  simp [List.dropWhile_cons, h]

/-- The head surviving a `dropWhile` fails the predicate. -/
theorem sb_dropWhile_cons_eq {α : Type} {p : α → Bool} {l t : List α} {a : α}
    (h : List.dropWhile p l = a :: t) : p a = false := by
  induction l with
  | nil => simp [List.dropWhile] at h
  | cons x xs ih =>
    rw [List.dropWhile_cons] at h
    cases hx : p x with
    | true => rw [if_pos hx] at h; exact ih h
    | false =>
      rw [if_neg (by simp [hx])] at h
      cases h
      exact hx

/-- `dropWhile` is idempotent. -/
theorem sb_dropWhile_idem {α : Type} (p : α → Bool) (l : List α) :
    List.dropWhile p (List.dropWhile p l) = List.dropWhile p l := by
  cases h : List.dropWhile p l with
  | nil => simp
  | cons a t => exact sb_dropWhile_head_false t (sb_dropWhile_cons_eq h)

/-- Right-stripping is a no-op on a list ending in a whitespace-free
non-empty block. -/
theorem sb_rstrip_append {A x : List Char} (hne : x ≠ [])
    (hx : ∀ c ∈ x, pyIsSpace c = false) : rstripChars (A ++ x) = A ++ x := by
  unfold rstripChars
  rw [List.reverse_append]
  cases hrev : x.reverse with
  | nil => exact absurd (List.reverse_eq_nil_iff.mp hrev) hne
  | cons e es =>
    have he : e ∈ x := by
      rw [← List.mem_reverse, hrev]
      exact List.mem_cons_self e es
    rw [List.cons_append, sb_dropWhile_head_false _ (hx e he), ← List.cons_append,
      ← hrev, ← List.reverse_append, List.reverse_reverse]

/-- Left-stripping is idempotent. -/
theorem sb_lstrip_idem (l : List Char) :
    lstripChars (lstripChars l) = lstripChars l :=
  sb_dropWhile_idem pyIsSpace l

/-- Right-stripping is idempotent. -/
theorem sb_rstrip_idem (l : List Char) :
    rstripChars (rstripChars l) = rstripChars l := by
  unfold rstripChars
  rw [List.reverse_reverse, sb_dropWhile_idem]

/-- Left-stripping is a no-op after a full strip. -/
theorem sb_lstrip_rstrip (l : List Char) :
    lstripChars (rstripChars (lstripChars l)) = rstripChars (lstripChars l) := by
  cases h : lstripChars l with
  | nil => rfl
  | cons c t =>
    have hc : pyIsSpace c = false := sb_dropWhile_cons_eq h
    show lstripChars (rstripChars (c :: t)) = rstripChars (c :: t)
    unfold rstripChars
    rw [show (c :: t).reverse = t.reverse ++ [c] by simp, List.dropWhile_append]
    cases hemp : (List.dropWhile pyIsSpace t.reverse).isEmpty with
    | true =>
      rw [if_pos rfl, sb_dropWhile_head_false [] hc]
      simp [lstripChars, List.dropWhile_cons, hc]
    | false =>
      rw [if_neg (by simp)]
      rw [List.reverse_append]
      simp only [List.reverse_cons, List.reverse_nil, List.nil_append, List.singleton_append]
      exact sb_dropWhile_head_false _ hc

/-- Python `strip` is idempotent. -/
theorem sb_pyStrip_idem (l : List Char) : pyStrip (pyStrip l) = pyStrip l := by
  unfold pyStrip
  rw [sb_lstrip_rstrip, sb_rstrip_idem]

/-- The output of the fence stripper is already stripped. -/
theorem sb_strip_fences_stripped (l : List Char) :
    pyStrip (stripMarkdownFences l) = stripMarkdownFences l := by
  by_cases h : startsWithFence (pyStrip l)
  · simp [stripMarkdownFences, h, sb_pyStrip_idem]
  · simp [stripMarkdownFences, h, sb_pyStrip_idem]

/-- When the stripped input carries no leading fence, the fence stripper is
exactly `strip`. -/
theorem sb_strip_fences_of_no_fence {l : List Char}
    (h : startsWithFence (pyStrip l) = false) :
    stripMarkdownFences l = pyStrip l := by
  simp [stripMarkdownFences, h]

/-- Splitting a newline-free line yields exactly that line. -/
theorem sb_splitOnNl_no_nl {a : List Char} (h : '\n' ∉ a) : splitOnNl a = [a] := by
  induction a with
  | nil => rfl
  | cons c rest ih =>
    have hc : ¬ c = '\n' := fun hh => h (hh ▸ List.mem_cons_self c rest)
    have hr : '\n' ∉ rest := fun hh => h (List.mem_cons_of_mem c hh)
    simp only [splitOnNl, if_neg hc, ih hr]

/-- Splitting past a newline-free leading line peels it off. -/
theorem sb_splitOnNl_append {a : List Char} (b : List Char) (h : '\n' ∉ a) :
    splitOnNl (a ++ '\n' :: b) = a :: splitOnNl b := by
  induction a with
  | nil => simp [splitOnNl]
  | cons c rest ih =>
    have hc : ¬ c = '\n' := fun hh => h (hh ▸ List.mem_cons_self c rest)
    have hr : '\n' ∉ rest := fun hh => h (List.mem_cons_of_mem c hh)
    simp only [List.cons_append, splitOnNl, if_neg hc]
    rw [show rest.append ('\n' :: b) = rest ++ '\n' :: b from rfl, ih hr]

/-- Joining a non-empty list of lines peels as append. -/
theorem sb_joinNl_cons {ls : List (List Char)} (l : List Char) (h : ls ≠ []) :
    joinNl (l :: ls) = l ++ '\n' :: joinNl ls := by
  cases ls with
  | nil => exact absurd rfl h
  | cons x xs => rfl

/-- Splitting a joined block of newline-free lines followed by a newline and
a remainder recovers the lines. -/
theorem sb_splitOnNl_joinNl_append {ls : List (List Char)} (b : List Char)
    (hne : ls ≠ []) (h : ∀ l ∈ ls, '\n' ∉ l) :
    splitOnNl (joinNl ls ++ '\n' :: b) = ls ++ splitOnNl b := by
  induction ls with
  | nil => exact absurd rfl hne
  | cons x xs ih =>
    cases xs with
    | nil =>
      show splitOnNl (x ++ '\n' :: b) = [x] ++ splitOnNl b
      rw [sb_splitOnNl_append b (h x (List.mem_cons_self x [])), List.singleton_append]
    | cons y ys =>
      rw [sb_joinNl_cons x (by simp), List.append_assoc, List.cons_append]
      rw [sb_splitOnNl_append _ (h x (List.mem_cons_self x (y :: ys)))]
      rw [ih (by simp) (fun l hl => h l (List.mem_cons_of_mem x hl))]
      rfl

/-- A list starting with a fence marker is three backquotes and a tail. -/
theorem sb_startsWithFence_shape {l : List Char} (h : startsWithFence l = true) :
    ∃ r, l = fenceChar :: fenceChar :: fenceChar :: r := by
  match l, h with
  | c1 :: c2 :: c3 :: r, h =>
    simp only [startsWithFence, Bool.and_eq_true, decide_eq_true_eq] at h
    exact ⟨r, by rw [h.1.1, h.1.2, h.2]⟩

/-- C7: an input consisting of a leading fence line, a body, and a trailing
fence line strips to the trimmed body, so the fenced and unfenced forms
parse identically.  The body is given by its newline-free lines, none of
which starts with a fence marker (nor does the trimmed body as a whole),
and the fence lines are newline-free with the closing fence whitespace-free
so that the outer trim cannot eat past it. -/
theorem fence_strip_recovers_body
    (fenceOpen fenceClose : List Char) (bodyLines : List (List Char))
    (hO : startsWithFence fenceOpen = true) (hOnl : '\n' ∉ fenceOpen)
    (hC : startsWithFence fenceClose = true) (hCnl : '\n' ∉ fenceClose)
    (hCsp : ∀ c ∈ fenceClose, pyIsSpace c = false)
    (hBne : bodyLines ≠ [])
    (hBnl : ∀ l ∈ bodyLines, '\n' ∉ l)
    (hBfence : ∀ l ∈ bodyLines, startsWithFence l = false)
    (hBody : startsWithFence (pyStrip (joinNl bodyLines)) = false) :
    stripMarkdownFences (fenceOpen ++ '\n' :: (joinNl bodyLines ++ '\n' :: fenceClose))
        = pyStrip (joinNl bodyLines)
    ∧ stripMarkdownFences (fenceOpen ++ '\n' :: (joinNl bodyLines ++ '\n' :: fenceClose))
        = stripMarkdownFences (joinNl bodyLines) := by
  obtain ⟨r, hr⟩ := sb_startsWithFence_shape hO
  have hCne : fenceClose ≠ [] := by
    obtain ⟨rc, hrc⟩ := sb_startsWithFence_shape hC
    simp [hrc]
  set input := fenceOpen ++ '\n' :: (joinNl bodyLines ++ '\n' :: fenceClose) with hinput
  have hfc_nonspace : pyIsSpace fenceChar = false := by decide
  have hlstrip : lstripChars input = input := by
    rw [hinput, hr]
    simp only [List.cons_append]
    exact sb_dropWhile_head_false _ hfc_nonspace
  have hrstrip : rstripChars input = input := by
    rw [hinput]
    rw [show fenceOpen ++ '\n' :: (joinNl bodyLines ++ '\n' :: fenceClose)
        = (fenceOpen ++ '\n' :: joinNl bodyLines ++ ['\n']) ++ fenceClose by simp]
    rw [sb_rstrip_append hCne hCsp]
  have hstrip : pyStrip input = input := by
    unfold pyStrip
    rw [hlstrip, hrstrip]
  have hfence : startsWithFence input = true := by
    rw [hinput, hr]
    simp only [List.cons_append]
    simp [startsWithFence]
  have hsplit : splitOnNl input = fenceOpen :: (bodyLines ++ [fenceClose]) := by
    rw [hinput, sb_splitOnNl_append _ hOnl,
      sb_splitOnNl_joinNl_append _ hBne hBnl, sb_splitOnNl_no_nl hCnl]
  have hfilter : (splitOnNl input).filter (fun l => !startsWithFence l) = bodyLines := by
    rw [hsplit]
    simp only [List.filter_cons, List.filter_append, hO, hC, Bool.not_true,
      Bool.false_eq_true, if_false, List.filter_nil, List.append_nil]
    exact List.filter_eq_self.mpr (fun l hl => by rw [hBfence l hl]; rfl)
  have hmain : stripMarkdownFences input = pyStrip (joinNl bodyLines) := by
    simp only [stripMarkdownFences]
    rw [hstrip, hfence, if_pos rfl, hfilter]
  exact ⟨hmain, by rw [hmain, sb_strip_fences_of_no_fence hBody]⟩

/-- C7 witness: the fenced raw response from Scenario E strips to the
unfenced JSON body and parses identically to it. -/
theorem fence_strip_recovers_body_witness :
    stripMarkdownFences (toChars "```json" ++ '\n'
        :: (joinNl [toChars "\x7b\"a\":1\x7d"] ++ '\n' :: toChars "```"))
        = pyStrip (joinNl [toChars "\x7b\"a\":1\x7d"])
    ∧ stripMarkdownFences (toChars "```json" ++ '\n'
        :: (joinNl [toChars "\x7b\"a\":1\x7d"] ++ '\n' :: toChars "```"))
        = stripMarkdownFences (joinNl [toChars "\x7b\"a\":1\x7d"]) :=
  fence_strip_recovers_body (toChars "```json") (toChars "```")
    [toChars "\x7b\"a\":1\x7d"]
    (by decide) (by decide) (by decide) (by decide) (by decide) (by decide)
    (by decide) (by decide) (by decide)

/-- C10 counterexample: `_strip_markdown_fences` is not idempotent.  On the
input consisting of a fence line followed by the line made of a space and
three backquotes, one application yields the bare fence marker (the inner
line survives the filter because of its leading space, and the final trim
then exposes the backquotes), and a second application yields the empty
string. -/
theorem fence_strip_idem_counterexample :
    stripMarkdownFences (stripMarkdownFences (toChars "```\n ```"))
      ≠ stripMarkdownFences (toChars "```\n ```") := by decide

/-- C10 amended: the fence stripper is idempotent on every input whose
once-stripped output does not itself start with a fence marker; the second
application then only re-trims an already trimmed string. -/
theorem fence_strip_idem_of_no_fence (s : List Char)
    (h : startsWithFence (stripMarkdownFences s) = false) :
    stripMarkdownFences (stripMarkdownFences s) = stripMarkdownFences s := by
  have h2 : startsWithFence (pyStrip (stripMarkdownFences s)) = false := by
    rw [sb_strip_fences_stripped]
    exact h
  rw [sb_strip_fences_of_no_fence h2, sb_strip_fences_stripped]

/-- C10 amended witness: a well-formed fenced block satisfies the no-fence
side condition and the stripper is idempotent on it. -/
theorem fence_strip_idem_of_no_fence_witness :
    startsWithFence (stripMarkdownFences (toChars "```json\nhello\n```")) = false
    ∧ stripMarkdownFences (stripMarkdownFences (toChars "```json\nhello\n```"))
        = stripMarkdownFences (toChars "```json\nhello\n```") :=
  ⟨by decide, fence_strip_idem_of_no_fence _ (by decide)⟩

/-- C1: in the live interview flow, every run of the Submit Answer handler
either accepts the turn — the answers list grows by exactly one and the
cursor advances by exactly one — or leaves both untouched; the cursor
advances exactly when an answer is appended, so the two mutations never
occur independently.  The Skip Question handler likewise appends exactly
one answer and advances the cursor by one. -/
theorem live_turn_advancement (st : LiveSessionState) (mode : LiveMode)
    (audioPresent : Bool) (answer : String) (transcribe : Except Unit String)
    (clarity : String → Except Unit LiveAnswerFeedback) :
    let r := submitAnswer st mode audioPresent answer transcribe clarity
    ((outcomeAccepts r.2 = true
        ∧ r.1.answers.length = st.answers.length + 1
        ∧ r.1.currentQ = st.currentQ + 1)
      ∨ (outcomeAccepts r.2 = false
        ∧ r.1.answers = st.answers
        ∧ r.1.currentQ = st.currentQ))
    ∧ (r.1.currentQ = st.currentQ + 1 ↔ r.1.answers.length = st.answers.length + 1)
    ∧ (skipQuestion st).answers.length = st.answers.length + 1
    ∧ (skipQuestion st).currentQ = st.currentQ + 1 := by
  refine ⟨?_, ?_, by simp [skipQuestion], by simp [skipQuestion]⟩
  · unfold submitAnswer clarityGate
    repeat' split
    all_goals simp [acceptAnswer, outcomeAccepts]
  · unfold submitAnswer clarityGate
    repeat' split
    all_goals simp [acceptAnswer]

/-- C2: when the clarity check returns a verdict with
`needs_clarification = true` and a truthy clarification prompt, the Submit
Answer handler leaves both the answers list and the cursor unchanged, so
the same question remains current for resubmission. -/
theorem clarification_does_not_advance (st : LiveSessionState)
    (mode : LiveMode) (audioPresent : Bool) (answer : String)
    (transcribe : Except Unit String) (fb : LiveAnswerFeedback)
    (h1 : fb.needs_clarification = true)
    (h2 : optStrTruthy fb.clarification_prompt = true) :
    (submitAnswer st mode audioPresent answer transcribe (fun _ => .ok fb)).1.answers
        = st.answers
    ∧ (submitAnswer st mode audioPresent answer transcribe (fun _ => .ok fb)).1.currentQ
        = st.currentQ := by
  unfold submitAnswer clarityGate
  repeat' split
  all_goals simp_all

/-- C2 witness: a vague answer met by the verdict asking "Can you
elaborate?" leaves the fresh session at question 0 with no answers. -/
theorem clarification_does_not_advance_witness :
    (submitAnswer ⟨[], [], 0⟩ .text false "ok" (.error ())
        (fun _ => .ok ⟨false, true, some "Can you elaborate?", ""⟩)).1.answers
        = ([] : List String)
    ∧ (submitAnswer ⟨[], [], 0⟩ .text false "ok" (.error ())
        (fun _ => .ok ⟨false, true, some "Can you elaborate?", ""⟩)).1.currentQ
        = 0 :=
  clarification_does_not_advance ⟨[], [], 0⟩ .text false "ok" (.error ())
    ⟨false, true, some "Can you elaborate?", ""⟩ rfl (by decide)

/-- C5 counterexample: with an audio submission whose transcription fails
and no accompanying text answer, the handler does not accept the
placeholder "[Error processing answer]" and does not advance: it shows an
error and stops with the session state untouched (the `st.stop()` control
exception is not caught by the handler's `except Exception`). -/
theorem transcription_failure_counterexample :
    (submitAnswer ⟨[], [], 0⟩ .audio true "" (.error ())
        (fun _ => .ok defaultClarityVerdict)).2 = .stoppedForRetry
    ∧ (submitAnswer ⟨[], [], 0⟩ .audio true "" (.error ())
        (fun _ => .ok defaultClarityVerdict)).1.answers = ([] : List String)
    ∧ (submitAnswer ⟨[], [], 0⟩ .audio true "" (.error ())
        (fun _ => .ok defaultClarityVerdict)).1.currentQ = 0 :=
  ⟨rfl, rfl, rfl⟩

/-- C5 amended: when audio transcription fails, the submission degrades to
the accompanying typed text answer when its strip is truthy (here accepted
by the clarity gate and appended, advancing the turn); when no text answer
exists the handler stops without mutating state; and the placeholder
"[Error processing answer]" belongs to the outer exception-recovery path,
e.g. a clarity-check failure after an empty transcript with no typed
text. -/
theorem transcription_failure_behavior (st : LiveSessionState)
    (answer ans2 : String) (fb : LiveAnswerFeedback)
    (hfb : (fb.needs_clarification && optStrTruthy fb.clarification_prompt) = false)
    (h1 : strippedTruthy answer = true) (h2 : strippedTruthy ans2 = false) :
    submitAnswer st .audio true answer (.error ()) (fun _ => .ok fb)
        = (acceptAnswer st answer, .accepted answer)
    ∧ submitAnswer st .audio true ans2 (.error ()) (fun _ => .ok fb)
        = (st, .stoppedForRetry)
    ∧ submitAnswer st .audio true ans2 (.ok "") (fun _ => .error ())
        = ({ st with
              transcripts := st.transcripts ++ [""]
              answers := st.answers ++ ["[Error processing answer]"]
              currentQ := st.currentQ + 1 },
           .errorRecovered "[Error processing answer]") := by
  refine ⟨?_, ?_, ?_⟩
  · simp [submitAnswer, clarityGate, h1, hfb]
  · simp [submitAnswer, h2]
  · have he : ("" : String).isEmpty = true := rfl
    simp [submitAnswer, clarityGate, acceptAnswer, strTruthy, h2, he]

/-- C5 amended witness: concrete runs of the three transcription-failure
behaviors on a fresh session. -/
theorem transcription_failure_behavior_witness :
    submitAnswer ⟨[], [], 0⟩ .audio true "I used Python." (.error ())
        (fun _ => .ok defaultClarityVerdict)
        = (acceptAnswer ⟨[], [], 0⟩ "I used Python.", .accepted "I used Python.")
    ∧ submitAnswer ⟨[], [], 0⟩ .audio true "" (.error ())
        (fun _ => .ok defaultClarityVerdict)
        = (⟨[], [], 0⟩, .stoppedForRetry)
    ∧ submitAnswer ⟨[], [], 0⟩ .audio true "" (.ok "") (fun _ => .error ())
        = (⟨["[Error processing answer]"], [""], 1⟩,
           .errorRecovered "[Error processing answer]") :=
  transcription_failure_behavior ⟨[], [], 0⟩ "I used Python." ""
    defaultClarityVerdict (by decide) (by decide) (by decide)

/-- C3 counterexample: a successful call of
`generate_live_interview_questions` need not return 7 questions numbered
1..7 — a usable candidate whose payload decodes to a single question
numbered 3 is returned verbatim, with no count or numbering check anywhere
between `json.loads` and the `return`. -/
theorem live_generation_count_counterexample :
    generate_live_interview_questions
        [⟨some [toChars "\x7b\"questions\":[...]\x7d"]⟩]
        (fun _ => .ok [strayLiveQuestion])
        = .ok [strayLiveQuestion]
    ∧ [strayLiveQuestion].length ≠ 7 :=
  ⟨rfl, by decide⟩

/-- C3 amended: `generate_live_interview_questions` returns the decoded
payload's question list unmodified; in particular, when the backend honors
the prompt and the payload carries exactly 7 questions numbered 1..7 in
order, so does the result — but the function itself enforces neither the
count nor the numbering. -/
theorem live_generation_passthrough (rest : List GenCandidate)
    (t : List Char) (parts : List (List Char))
    (qs : List LiveInterviewQuestion) :
    generate_live_interview_questions (⟨some (t :: parts)⟩ :: rest)
        (fun _ => .ok qs) = .ok qs
    ∧ generate_live_interview_questions (⟨some (t :: parts)⟩ :: rest)
        (fun _ => .ok sevenLiveQuestions) = .ok sevenLiveQuestions
    ∧ sevenLiveQuestions.length = 7
    ∧ sevenLiveQuestions.map LiveInterviewQuestion.question_number
        = [1, 2, 3, 4, 5, 6, 7] :=
  ⟨rfl, rfl, rfl, rfl⟩

/-- C4: when the clarity-check backend returns no usable candidate — an
empty candidate list, or a first candidate whose content is `None` —
`check_answer_clarity` does not raise: it returns the fail-open default
verdict, which has `needs_clarification = False` and
`brief_feedback = "Answer noted."`. -/
theorem clarity_failopen_default
    (decodeVerdict : List Char → Except Unit LiveAnswerFeedback)
    (rest : List GenCandidate) :
    check_answer_clarity [] decodeVerdict = .ok defaultClarityVerdict
    ∧ check_answer_clarity (⟨none⟩ :: rest) decodeVerdict
        = .ok defaultClarityVerdict
    ∧ defaultClarityVerdict.needs_clarification = false
    ∧ defaultClarityVerdict.brief_feedback = "Answer noted." :=
  ⟨rfl, rfl, rfl, rfl⟩

/-- C6 counterexample: a successful `generate_questions` call need not
return exactly 5 questions — the slice `[:5]` of a three-question payload
is the payload itself, so the call succeeds with 3 questions. -/
theorem standard_generation_count_counterexample :
    generate_questions [⟨some [toChars "\x7b\"questions\":[...]\x7d"]⟩]
        (fun _ => .ok threeQuestions) 5 = .ok threeQuestions
    ∧ threeQuestions.length ≠ 5 :=
  ⟨rfl, by decide⟩

/-- C6 amended: `generate_questions` returns the first
`min(count, 5)` decoded questions: when the model returns at least the
default count of 5 the result has length exactly 5 and is the first-five
truncation (more than 5 is truncated rather than rejected); a shorter
payload is returned whole. -/
theorem standard_generation_truncates (rest : List GenCandidate)
    (t : List Char) (parts : List (List Char)) (qs : List InterviewQuestion)
    (h : 5 ≤ qs.length) :
    generate_questions (⟨some (t :: parts)⟩ :: rest) (fun _ => .ok qs) 5
        = .ok (qs.take 5)
    ∧ (qs.take 5).length = 5 := by
  refine ⟨rfl, ?_⟩
  rw [List.length_take]
  omega

/-- C6 amended witness: a six-question payload truncates to its first
five. -/
theorem standard_generation_truncates_witness :
    generate_questions [⟨some [toChars "\x7b\"questions\":[...]\x7d"]⟩]
        (fun _ => .ok sixQuestions) 5 = .ok (sixQuestions.take 5)
    ∧ (sixQuestions.take 5).length = 5 :=
  standard_generation_truncates [] (toChars "\x7b\"questions\":[...]\x7d") []
    sixQuestions (by decide)

/-- C8 counterexample: `ClarityVerdict`s produced by the system can carry
both a follow-up prompt and a non-empty acknowledgement: a usable
backend payload decoding to such a record is returned by
`check_answer_clarity` unchanged, since the pydantic model has no
cross-field validator. -/
theorem clarity_exclusivity_counterexample :
    check_answer_clarity [⟨some [toChars "\x7b...\x7d"]⟩]
        (fun _ => .ok bothPopulatedVerdict) = .ok bothPopulatedVerdict
    ∧ bothPopulatedVerdict.clarification_prompt ≠ none
    ∧ bothPopulatedVerdict.brief_feedback ≠ "" :=
  ⟨rfl, by decide, by decide⟩

/-- C8 amended: the exclusivity invariant holds for the fail-open default
verdict (its clarification prompt is `None` while its acknowledgement is
populated), but it is not enforced on decoded backend payloads, which
`check_answer_clarity` returns verbatim. -/
theorem clarity_exclusivity_default
    (decodeVerdict : List Char → Except Unit LiveAnswerFeedback)
    (rest : List GenCandidate) (t : List Char) (parts : List (List Char))
    (v : LiveAnswerFeedback) :
    defaultClarityVerdict.clarification_prompt = none
    ∧ check_answer_clarity [] decodeVerdict = .ok defaultClarityVerdict
    ∧ check_answer_clarity (⟨some (t :: parts)⟩ :: rest) (fun _ => .ok v)
        = .ok v :=
  ⟨rfl, rfl, rfl⟩

/-- C9: once the request count has reached `SERPAPI_MONTHLY_QUOTA`, every
further non-cached `search_jobs` call (fresh, or keyed outside the cache)
fails with the distinct quota-exhausted outcome, performs no network
request (only the `fetched` outcome does), and leaves the state — in
particular the request count — unchanged. -/
theorem serp_quota_blocks (st : SerpState) (query : String)
    (location : Option String) (numResults : Nat) (fresh : Bool)
    (net : SerpPayload)
    (hq : SERPAPI_MONTHLY_QUOTA ≤ st.requestCount)
    (hnc : fresh = true
      ∨ cacheLookup st.cache (query, location.getD "", numResults) = none) :
    search_jobs st query location numResults fresh net = (st, .quotaError) := by
  rcases hnc with h | h
  · subst h
    simp [search_jobs, hq]
  · cases fresh <;> simp [search_jobs, h, hq]

/-- C9 witness: a client at its 250-request ceiling with an empty cache
rejects a query immediately without touching its state. -/
theorem serp_quota_blocks_witness :
    search_jobs ⟨250, []⟩ "python developer" (some "Remote") 5 false
        ⟨["role"]⟩ = (⟨250, []⟩, .quotaError) :=
  serp_quota_blocks ⟨250, []⟩ "python developer" (some "Remote") 5 false
    ⟨["role"]⟩ (by decide) (Or.inr rfl)

end SkillBuddy
